import Mathlib

/-!
Verification development for the SportSphere booking core
(`src/controllers/payment/stripeWebhook.ts`: the webhook reconciler,
`retryPayment`, and `createDirectBooking`).

The MongoDB/Mongoose document stores are embedded as lists of records; the
atomic `findOneAndUpdate` conditional updates become pure functions on a
database state that also report whether a document matched.  Every call to
the payment-processor session API is recorded as a `SessionParams` value so
that theorems can talk about the metadata and expiry each flow passes.
External effects that may fail (the Stripe client, persistence of a new
booking) are supplied as oracle fields of an environment record.
-/

namespace SportSphere

/-- Status of one bookable slot entry (the field `slots[].status` of a
TimeSlot document: the string enum with values "available" and "booked"). -/
inductive SlotStatus where
  | available
  | booked
deriving DecidableEq

/-- Per-sport price data attached to a slot.  In the source this is either a
Mongoose Map, read with `slot.prices.get(sport)`, or a plain object, read
with `slot.prices[sport]`; both are keyed collections of numbers. -/
inductive Prices where
  | pricesMap (entries : List (String × Nat))
  | pricesObj (entries : List (String × Nat))
deriving DecidableEq

/-- The price lookup of `createDirectBooking`: when the data is a Map the
map accessor is used, otherwise the plain property accessor. -/
def Prices.lookup : Prices → String → Option Nat
  | Prices.pricesMap entries, sport => entries.lookup sport
  | Prices.pricesObj entries, sport => entries.lookup sport

/-- One embedded slot entry of a TimeSlot document.  Times are epoch
milliseconds. -/
structure SlotEntry where
  id : Nat
  startTime : Nat
  endTime : Nat
  status : SlotStatus
  bookedForSport : Option String
  prices : Prices
deriving DecidableEq

/-- One TimeSlot document: all bookable intervals of one sub-venue on one
calendar date (`date` is the day key of the YYYY-MM-DD string). -/
structure TimeSlotDoc where
  id : Nat
  subVenue : Nat
  date : Nat
  slots : List SlotEntry
deriving DecidableEq

/-- Booking lifecycle status. -/
inductive BookingStatus where
  | Pending
  | Paid
  | Failed
deriving DecidableEq

/-- One booking record. -/
structure Booking where
  id : Nat
  user : Nat
  venueId : Nat
  subVenueId : Option Nat
  sport : String
  startTime : Nat
  endTime : Nat
  timeSlotDocId : Option Nat
  slotId : Option Nat
  amount : Nat
  currency : String
  stripeSessionId : String
  stripePaymentIntentId : Option String
  status : BookingStatus
  gameId : Option Nat
deriving DecidableEq

/-- The parts of a Game document the payment code touches: `status`
(strings such as "Open" and "Full") and `bookingStatus`. -/
structure Game where
  id : Nat
  status : String
  bookingStatus : String
deriving DecidableEq

/-- A sub-venue, pointing at its parent venue. -/
structure SubVenue where
  id : Nat
  venue : Nat
deriving DecidableEq

/-- A venue with its location coordinates. -/
structure Venue where
  id : Nat
  coordinates : List Int
deriving DecidableEq

/-- The whole datastore the three controllers read and write. -/
structure DB where
  timeSlots : List TimeSlotDoc
  bookings : List Booking
  games : List Game
  subVenues : List SubVenue
  venues : List Venue
deriving DecidableEq

/-- The AppError shape: message and HTTP status code. -/
structure AppError where
  message : String
  statusCode : Nat
deriving DecidableEq

/-- Update the first element satisfying `p` (the semantics of a single
MongoDB `findOneAndUpdate` with a positional update, and of a
`findIndex` followed by an indexed assignment); the Boolean reports
whether any element matched. -/
def updateFirstWhere (p : α → Bool) (f : α → α) : List α → List α × Bool
  | [] => ([], false)
  | x :: xs =>
    if p x then (f x :: xs, true)
    else
      let r := updateFirstWhere p f xs
      (x :: r.1, r.2)

/-- The per-slot condition of the conditional lock query: slot id matches
and the slot is currently available. -/
def slotMatchesAvailable (slotId : Nat) (s : SlotEntry) : Bool :=
  s.id == slotId && decide (s.status = SlotStatus.available)

/-- The per-slot condition of the unconditional release query: slot id
matches, with no constraint on status. -/
def slotMatchesId (slotId : Nat) (s : SlotEntry) : Bool :=
  s.id == slotId

/-- The positional update of the lock: set status to booked and record the
sport. -/
def setSlotBooked (sport : String) (s : SlotEntry) : SlotEntry :=
  { s with status := SlotStatus.booked, bookedForSport := some sport }

/-- The positional update of the release: set status to available and clear
the sport. -/
def setSlotAvailable (s : SlotEntry) : SlotEntry :=
  { s with status := SlotStatus.available, bookedForSport := none }

/-- The document-level match condition of the conditional lock query:
document id matches and the document holds the slot with the given id in
available status. -/
def lockDocMatch (docId slotId : Nat) (t : TimeSlotDoc) : Bool :=
  t.id == docId && t.slots.any (slotMatchesAvailable slotId)

/-- The document-level effect of the conditional lock: book the matched
slot for the given sport. -/
def lockDocUpdate (slotId : Nat) (sport : String) (t : TimeSlotDoc) : TimeSlotDoc :=
  { t with slots := (updateFirstWhere (slotMatchesAvailable slotId) (setSlotBooked sport) t.slots).1 }

/-- The atomic conditional lock: `TimeSlot.findOneAndUpdate` matching on
document id, embedded slot id and current status "available", setting the
slot to booked for the given sport.  Returns the updated database and
whether a document matched. -/
def lockSlot (db : DB) (docId slotId : Nat) (sport : String) : DB × Bool :=
  ({ db with timeSlots :=
      (updateFirstWhere (lockDocMatch docId slotId) (lockDocUpdate slotId sport) db.timeSlots).1 },
   (updateFirstWhere (lockDocMatch docId slotId) (lockDocUpdate slotId sport) db.timeSlots).2)

/-- The document-level match condition of the unconditional release query:
document id matches and the document holds the slot with the given id. -/
def releaseDocMatch (docId slotId : Nat) (t : TimeSlotDoc) : Bool :=
  t.id == docId && t.slots.any (slotMatchesId slotId)

/-- The document-level effect of the unconditional release: set the matched
slot available and clear its sport. -/
def releaseDocUpdate (slotId : Nat) (t : TimeSlotDoc) : TimeSlotDoc :=
  { t with slots := (updateFirstWhere (slotMatchesId slotId) setSlotAvailable t.slots).1 }

/-- The unconditional release: `TimeSlot.findOneAndUpdate` matching on
document id and embedded slot id only, setting the slot available and
clearing `bookedForSport`.  Used by the rollback paths and by the webhook
metadata path. -/
def releaseSlot (db : DB) (docId slotId : Nat) : DB :=
  { db with timeSlots :=
      (updateFirstWhere (releaseDocMatch docId slotId) (releaseDocUpdate slotId) db.timeSlots).1 }

/-- `TimeSlot.findById`. -/
def findTimeSlot (db : DB) (docId : Nat) : Option TimeSlotDoc :=
  db.timeSlots.find? (fun t => t.id == docId)

/-- The slot entry with the given id inside the document with the given id,
when both exist: the observable state of one slot. -/
def slotIn (db : DB) (docId slotId : Nat) : Option SlotEntry :=
  (findTimeSlot db docId).bind (fun t => t.slots.find? (fun s => s.id == slotId))

/-- `Booking.findOne({stripeSessionId: sid})`. -/
def findBookingBySession (db : DB) (sid : String) : Option Booking :=
  db.bookings.find? (fun b => b.stripeSessionId == sid)

/-- `Booking.findOne({_id: bid, user: uid})`. -/
def findBookingByIdUser (db : DB) (bid uid : Nat) : Option Booking :=
  db.bookings.find? (fun b => b.id == bid && b.user == uid)

/-- The booking with the given id, the observable state of one booking. -/
def findBookingById (db : DB) (bid : Nat) : Option Booking :=
  db.bookings.find? (fun b => b.id == bid)

/-- Persist a mutated booking document (`booking.save()`): replace the
stored booking with the same id. -/
def saveBooking (db : DB) (b : Booking) : DB :=
  { db with bookings := (updateFirstWhere (fun x => x.id == b.id) (fun _ => b) db.bookings).1 }

/-- `Game.findById`. -/
def findGame (db : DB) (gid : Nat) : Option Game :=
  db.games.find? (fun g => g.id == gid)

/-- Persist a mutated game document (`game.save()`). -/
def saveGame (db : DB) (g : Game) : DB :=
  { db with games := (updateFirstWhere (fun x => x.id == g.id) (fun _ => g) db.games).1 }

/-- The YYYY-MM-DD prefix of `startTime.toISOString()`: since times are
epoch milliseconds, two times render the same date string exactly when they
fall on the same epoch day. -/
def dayKey (t : Nat) : Nat := t / 86400000

/-- The query `{subVenue: svId, date: dateStr}` used by the retry flow and
the webhook fallback to locate a TimeSlot document. -/
def fallbackDocMatch (svId dk : Nat) (t : TimeSlotDoc) : Bool :=
  t.subVenue == svId && t.date == dk

/-- The slot match used by the retry flow and the webhook fallback: equal
start and end times. -/
def fallbackSlotMatch (st et : Nat) (s : SlotEntry) : Bool :=
  s.startTime == st && s.endTime == et

/-- The document-level effect of the webhook fallback release: set the
time-matched slot available and clear its sport. -/
def fallbackDocUpdate (st et : Nat) (t : TimeSlotDoc) : TimeSlotDoc :=
  { t with slots := (updateFirstWhere (fallbackSlotMatch st et) setSlotAvailable t.slots).1 }

/-- What the payment processor returns from `checkout.sessions.create`. -/
structure StripeSession where
  id : String
  url : String
deriving DecidableEq

/-- The arguments a flow passes to `stripe.checkout.sessions.create`: the
amount and currency of the line item, the optional `expires_at` (epoch
seconds), and the metadata bag. -/
structure SessionParams where
  unitAmount : Nat
  currency : String
  expiresAt : Option Nat
  metaType : String
  metaUserId : Nat
  metaBookingId : Nat
  metaTimeSlotDocId : Option Nat
  metaSlotId : Option Nat
deriving DecidableEq

/-- The session-create request issued by `createDirectBooking`: metadata
carries type "direct", the user, the pre-generated booking id, and the slot
document id and slot id; `expires_at` is thirty minutes after creation. -/
def directSessionParams (now : Nat) (userId bookingId timeSlotDocId slotId priceInPaise : Nat) :
    SessionParams :=
  { unitAmount := priceInPaise
    currency := "inr"
    expiresAt := some (now / 1000 + 30 * 60)
    metaType := "direct"
    metaUserId := userId
    metaBookingId := bookingId
    metaTimeSlotDocId := some timeSlotDocId
    metaSlotId := some slotId }

/-- The session-create request issued by `retryPayment`: metadata carries
only type "retry", the user and the booking id, and no expiry is set. -/
def retrySessionParams (booking : Booking) (userId : Nat) : SessionParams :=
  { unitAmount := booking.amount
    currency := booking.currency
    expiresAt := none
    metaType := "retry"
    metaUserId := userId
    metaBookingId := booking.id
    metaTimeSlotDocId := none
    metaSlotId := none }

/-- Environment of one `createDirectBooking` call: the clock, the demo
bypass flag, the id Mongoose generates for the new booking, and oracles for
the two effects that can fail after the lock (session creation and
`Booking.create`). -/
structure DirectEnv where
  now : Nat
  bypassStripe : Bool
  freshBookingId : Nat
  stripeCreate : Except AppError StripeSession
  bookingCreateFails : Option AppError

/-- Request body of `createDirectBooking` (fields may be absent). -/
structure DirectReq where
  subVenueId : Option Nat
  timeSlotDocId : Option Nat
  slotId : Option Nat
  sport : Option String
  userId : Nat

/-- Successful response of `createDirectBooking`. -/
structure DirectResp where
  statusCode : Nat
  url : Option String
  bookingId : Nat
deriving DecidableEq

/-- The booking record `createDirectBooking` persists. -/
def mkDirectBooking (bookingId userId venueId svId : Nat) (sport : String)
    (slot : SlotEntry) (timeSlotDocId slotId : Nat) (amount : Nat)
    (sessionId : String) (intent : Option String) (st : BookingStatus) : Booking :=
  { id := bookingId
    user := userId
    venueId := venueId
    subVenueId := some svId
    sport := sport
    startTime := slot.startTime
    endTime := slot.endTime
    timeSlotDocId := some timeSlotDocId
    slotId := some slotId
    amount := amount
    currency := "inr"
    stripeSessionId := sessionId
    stripePaymentIntentId := intent
    status := st
    gameId := none }

/-- The try block of `createDirectBooking`: everything after the successful
atomic lock.  `db1` is the state right after the lock.  On any failure the
catch issues the unconditional release for the exact slot and rethrows the
original error. -/
def directTryBlock (env : DirectEnv) (db1 : DB) (svId timeSlotDocId slotId : Nat)
    (sport : String) (userId : Nat) (slot : SlotEntry) (venue : Venue)
    (priceInPaise : Nat) : DB × List SessionParams × Except AppError DirectResp :=
  let bookingId := env.freshBookingId
  if env.bypassStripe then
    match env.bookingCreateFails with
    | some e => (releaseSlot db1 timeSlotDocId slotId, [], Except.error e)
    | none =>
      let booking := mkDirectBooking bookingId userId venue.id svId sport slot
        timeSlotDocId slotId priceInPaise ("demo_session_" ++ toString bookingId)
        (some ("demo_payment_" ++ toString bookingId)) BookingStatus.Paid
      ({ db1 with bookings := db1.bookings ++ [booking] }, [],
        Except.ok { statusCode := 201, url := none, bookingId := bookingId })
  else
    let params := directSessionParams env.now userId bookingId timeSlotDocId slotId priceInPaise
    match env.stripeCreate with
    | Except.error e => (releaseSlot db1 timeSlotDocId slotId, [params], Except.error e)
    | Except.ok session =>
      match env.bookingCreateFails with
      | some e => (releaseSlot db1 timeSlotDocId slotId, [params], Except.error e)
      | none =>
        let booking := mkDirectBooking bookingId userId venue.id svId sport slot
          timeSlotDocId slotId priceInPaise session.id none BookingStatus.Pending
        ({ db1 with bookings := db1.bookings ++ [booking] }, [params],
          Except.ok { statusCode := 201, url := some session.url, bookingId := bookingId })

/-- `createDirectBooking`: validate, read-check the slot, look up the
price (Map accessor when the data is a Map, property accessor otherwise),
resolve sub-venue and venue, atomically lock the slot, then run the try
block.  The middle component of the result lists every session-create
request this call issued. -/
def createDirectBooking (env : DirectEnv) (db : DB) (req : DirectReq) :
    DB × List SessionParams × Except AppError DirectResp :=
  match req.subVenueId, req.timeSlotDocId, req.slotId, req.sport with
  | some svId, some timeSlotDocId, some slotId, some sport =>
    match findTimeSlot db timeSlotDocId with
    | none => (db, [], Except.error ⟨"TimeSlot document not found", 404⟩)
    | some ts =>
      match ts.slots.find? (fun s => s.id == slotId) with
      | none => (db, [], Except.error ⟨"Slot not found", 404⟩)
      | some slot =>
        if slot.status ≠ SlotStatus.available then
          (db, [], Except.error ⟨"Slot is no longer available", 400⟩)
        else if slot.startTime < env.now then
          (db, [], Except.error ⟨"Cannot book a slot in the past", 400⟩)
        else
          match slot.prices.lookup sport with
          | none => (db, [], Except.error ⟨"Sport price not available for this slot", 400⟩)
          | some price =>
            if price = 0 then
              (db, [], Except.error ⟨"Sport price not available for this slot", 400⟩)
            else
              let priceInPaise := price * 100
              match db.subVenues.find? (fun sv => sv.id == svId) with
              | none => (db, [], Except.error ⟨"SubVenue not found", 404⟩)
              | some subVenue =>
                match db.venues.find? (fun v => v.id == subVenue.venue) with
                | none => (db, [], Except.error ⟨"Venue not found", 404⟩)
                | some venue =>
                  let locked := lockSlot db timeSlotDocId slotId sport
                  if locked.2 then
                    directTryBlock env locked.1 svId timeSlotDocId slotId sport
                      req.userId slot venue priceInPaise
                  else
                    (locked.1, [], Except.error ⟨"Slot is no longer available", 400⟩)
  | _, _, _, _ => (db, [], Except.error ⟨"Missing required fields", 400⟩)

/-- Environment of one `retryPayment` call: the clock and oracles for the
session creation and the `booking.save()` persistence. -/
structure RetryEnv where
  now : Nat
  stripeCreate : Except AppError StripeSession
  bookingSaveFails : Option AppError

/-- Request body of `retryPayment`. -/
structure RetryReq where
  bookingId : Option Nat
  userId : Nat

/-- Successful response of `retryPayment`. -/
structure RetryResp where
  url : String
  bookingId : Nat
deriving DecidableEq

/-- The try block of `retryPayment`: create a fresh session, update the
booking to Pending with the new session id, and flip a linked game back to
Full.  The catch releases the slot only when `didLock` is set. -/
def retryTryBlock (env : RetryEnv) (db1 : DB) (booking : Booking) (userId : Nat)
    (tsId slotEntryId : Nat) (didLock : Bool) :
    DB × List SessionParams × Except AppError RetryResp :=
  let params := retrySessionParams booking userId
  match env.stripeCreate with
  | Except.error e =>
    (if didLock then releaseSlot db1 tsId slotEntryId else db1, [params], Except.error e)
  | Except.ok session =>
    match env.bookingSaveFails with
    | some e =>
      (if didLock then releaseSlot db1 tsId slotEntryId else db1, [params], Except.error e)
    | none =>
      let db2 := saveBooking db1
        { booking with stripeSessionId := session.id, status := BookingStatus.Pending }
      let db3 :=
        match booking.gameId with
        | some gid =>
          match findGame db2 gid with
          | some game => saveGame db2 { game with status := "Full" }
          | none => db2
        | none => db2
      (db3, [params], Except.ok { url := session.url, bookingId := booking.id })

/-- `retryPayment`: reject missing id, foreign or absent bookings, Paid
bookings and past bookings; locate the slot by sub-venue, date and times;
for a Failed booking require re-acquiring the lock, for a Pending booking
try to lock but tolerate an already booked slot; then run the try block
with the local `didLock` flag. -/
def retryPayment (env : RetryEnv) (db : DB) (req : RetryReq) :
    DB × List SessionParams × Except AppError RetryResp :=
  match req.bookingId with
  | none => (db, [], Except.error ⟨"Booking ID is required", 400⟩)
  | some bookingId =>
    match findBookingByIdUser db bookingId req.userId with
    | none => (db, [], Except.error ⟨"Booking not found", 404⟩)
    | some booking =>
      if booking.status = BookingStatus.Paid then
        (db, [], Except.error ⟨"Booking is already paid", 400⟩)
      else if booking.startTime < env.now then
        (db, [], Except.error ⟨"Cannot retry payment for a past booking", 400⟩)
      else if booking.status = BookingStatus.Failed ∨ booking.status = BookingStatus.Pending then
        match booking.subVenueId with
        | none => (db, [], Except.error ⟨"Invalid booking: missing subVenueId", 400⟩)
        | some svId =>
          match db.timeSlots.find? (fallbackDocMatch svId (dayKey booking.startTime)) with
          | none => (db, [], Except.error ⟨"TimeSlot not found", 404⟩)
          | some ts =>
            match ts.slots.find? (fallbackSlotMatch booking.startTime booking.endTime) with
            | none => (db, [], Except.error ⟨"Slot not found", 404⟩)
            | some slot =>
              if booking.status = BookingStatus.Failed then
                let locked := lockSlot db ts.id slot.id booking.sport
                if locked.2 then
                  retryTryBlock env locked.1 booking req.userId ts.id slot.id true
                else
                  (locked.1, [], Except.error ⟨"Slot is no longer available", 400⟩)
              else
                let locked := lockSlot db ts.id slot.id booking.sport
                if locked.2 then
                  retryTryBlock env locked.1 booking req.userId ts.id slot.id true
                else
                  match slotIn locked.1 ts.id slot.id with
                  | some currentSlot =>
                    if currentSlot.status = SlotStatus.booked then
                      retryTryBlock env locked.1 booking req.userId ts.id slot.id false
                    else
                      (locked.1, [], Except.error ⟨"Slot is not available for retry", 400⟩)
                  | none => (locked.1, [], Except.error ⟨"Slot is not available for retry", 400⟩)
      else
        (db, [], Except.error ⟨"Invalid booking status for retry", 400⟩)

/-- Metadata carried by a checkout-session event (`mtype` models the
`type` field of the metadata bag). -/
structure EventMetadata where
  mtype : Option String
  gameId : Option Nat
  timeSlotDocId : Option Nat
  slotId : Option Nat
deriving DecidableEq

/-- A signature-verified Stripe event, as produced by `constructEvent`. -/
inductive StripeEvent where
  | checkoutSessionCompleted (sessionId : String) (paymentIntent : String)
      (metadata : EventMetadata)
  | checkoutSessionExpired (sessionId : String) (metadata : EventMetadata)
  | paymentIntentFailed (intentId : String)
  | paymentIntentSucceeded (intentId : String)
  | otherEvent (eventType : String)
deriving DecidableEq

/-- The `checkout.session.completed` branch: mark the matching booking
Paid with the payment intent, and flip a game marked in the metadata to
bookingStatus "Booked". -/
def handleSessionCompleted (db : DB) (sessionId paymentIntent : String)
    (metadata : EventMetadata) : DB :=
  match findBookingBySession db sessionId with
  | none => db
  | some booking =>
    let db1 := saveBooking db
      { booking with
        status := BookingStatus.Paid
        stripePaymentIntentId := some paymentIntent }
    if metadata.mtype = some "game" then
      match metadata.gameId with
      | some gid =>
        match findGame db1 gid with
        | some game => saveGame db1 { game with bookingStatus := "Booked" }
        | none => db1
      | none => db1
    else db1

/-- The booking and game mutations of the `checkout.session.expired`
branch: mark the found booking Failed and reset a game named in the
metadata to status "Open"; both run only when a booking matched. -/
def expiredBookingAndGameUpdate (db : DB) (found : Option Booking)
    (metadata : EventMetadata) : DB :=
  match found with
  | none => db
  | some booking =>
    let dbA := saveBooking db { booking with status := BookingStatus.Failed }
    match metadata.gameId with
    | some gid =>
      match findGame dbA gid with
      | some game => saveGame dbA { game with status := "Open" }
      | none => dbA
    | none => dbA

/-- The fallback slot release of the expired branch: look up the TimeSlot
document by the sub-venue and calendar date of the booking, find the slot
entry with the same start and end times, and set it available. -/
def expiredFallbackRelease (db1 : DB) (found : Option Booking) : DB :=
  match found with
  | none => db1
  | some booking =>
    match booking.subVenueId with
    | none => db1
    | some svId =>
      { db1 with timeSlots := (updateFirstWhere
          (fallbackDocMatch svId (dayKey booking.startTime))
          (fallbackDocUpdate booking.startTime booking.endTime)
          db1.timeSlots).1 }

/-- The `checkout.session.expired` branch: update booking and game, then
release the slot via the event metadata when both ids are present,
otherwise via the fallback date and time match. -/
def handleSessionExpired (db : DB) (sessionId : String) (metadata : EventMetadata) : DB :=
  let found := findBookingBySession db sessionId
  let db1 := expiredBookingAndGameUpdate db found metadata
  match metadata.timeSlotDocId, metadata.slotId with
  | some docId, some slotId => releaseSlot db1 docId slotId
  | _, _ => expiredFallbackRelease db1 found

/-- Environment of one webhook delivery: the outcome of the signature
verification (`stripe.webhooks.constructEvent`), which either rejects the
payload or yields the verified event. -/
structure WebhookEnv where
  constructEvent : Except String StripeEvent

/-- The webhook endpoint: verify the signature first; on failure answer 400
at once, otherwise dispatch on the event type and answer 200.  Returns the
final database and the HTTP status sent. -/
def stripeWebhook (env : WebhookEnv) (db : DB) : DB × Nat :=
  match env.constructEvent with
  | Except.error _ => (db, 400)
  | Except.ok event =>
    match event with
    | StripeEvent.checkoutSessionCompleted sid intentId meta =>
      (handleSessionCompleted db sid intentId meta, 200)
    | StripeEvent.checkoutSessionExpired sid meta =>
      (handleSessionExpired db sid meta, 200)
    | StripeEvent.paymentIntentFailed _ => (db, 200)
    | StripeEvent.paymentIntentSucceeded _ => (db, 200)
    | StripeEvent.otherEvent _ => (db, 200)

/-- The document-match condition of the conditional lock: some TimeSlot
document has the given id and holds the slot with the given id in
available status. -/
def canLock (db : DB) (docId slotId : Nat) : Bool :=
  db.timeSlots.any (lockDocMatch docId slotId)

/-- A serialized race: the conditional lock updates of the racing requests
execute atomically, one after another, against the same slot.  Returns the
final state and the match outcome each attempt observed. -/
def runLockAttempts (db : DB) (docId slotId : Nat) : List String → DB × List Bool
  | [] => (db, [])
  | sport :: rest =>
    let r := lockSlot db docId slotId sport
    let rs := runLockAttempts r.1 docId slotId rest
    (rs.1, r.2 :: rs.2)

/-- Well-formedness of the datastore: TimeSlot document ids are unique and
slot ids are unique within each document (Mongo `_id` uniqueness). -/
def dbWF (db : DB) : Prop :=
  (db.timeSlots.map TimeSlotDoc.id).Nodup ∧
    ∀ t ∈ db.timeSlots, (t.slots.map SlotEntry.id).Nodup

instance (db : DB) : Decidable (dbWF db) := by
  unfold dbWF
  infer_instance

/-! Generic lemmas about `updateFirstWhere`, the common shape of every
conditional document update in the embedding. -/

theorem updateFirstWhere_of_any_false {α : Type} (p : α → Bool) (f : α → α)
    (xs : List α) (h : xs.any p = false) : updateFirstWhere p f xs = (xs, false) := by
  induction xs with
  | nil => rfl
  | cons x xs ih =>
    simp only [List.any_cons, Bool.or_eq_false_iff] at h
    simp only [updateFirstWhere, h.1, Bool.false_eq_true, if_false, ih h.2]

theorem updateFirstWhere_fst_of_not_matched {α : Type} (p : α → Bool) (f : α → α)
    (xs : List α) (h : (updateFirstWhere p f xs).2 = false) :
    (updateFirstWhere p f xs).1 = xs := by
  induction xs with
  | nil => rfl
  | cons x xs ih =>
    by_cases hx : p x = true
    · simp [updateFirstWhere, hx] at h
    · simp only [Bool.not_eq_true] at hx
      simp only [updateFirstWhere, hx, Bool.false_eq_true, if_false] at h ⊢
      simp only [List.cons.injEq, true_and]
      exact ih h

theorem updateFirstWhere_map_key {α β : Type} (key : α → β) (p : α → Bool) (f : α → α)
    (hf : ∀ x, p x = true → key (f x) = key x) (xs : List α) :
    ((updateFirstWhere p f xs).1).map key = xs.map key := by
  induction xs with
  | nil => rfl
  | cons x xs ih =>
    by_cases hx : p x = true
    · simp only [updateFirstWhere, hx, if_true, List.map_cons, hf x hx]
    · simp only [Bool.not_eq_true] at hx
      simp only [updateFirstWhere, hx, Bool.false_eq_true, if_false, List.map_cons, ih]

theorem updateFirstWhere_mem {α : Type} (p : α → Bool) (f : α → α) (xs : List α) :
    ∀ y ∈ (updateFirstWhere p f xs).1, y ∈ xs ∨ ∃ x ∈ xs, p x = true ∧ y = f x := by
  induction xs with
  | nil => intro y hy; simp [updateFirstWhere] at hy
  | cons x xs ih =>
    intro y hy
    by_cases hx : p x = true
    · simp only [updateFirstWhere, hx, if_true, List.mem_cons] at hy
      rcases hy with hy | hy
      · exact Or.inr ⟨x, List.mem_cons_self x xs, hx, hy⟩
      · exact Or.inl (List.mem_cons_of_mem x hy)
    · simp only [Bool.not_eq_true] at hx
      simp only [updateFirstWhere, hx, Bool.false_eq_true, if_false, List.mem_cons] at hy
      rcases hy with hy | hy
      · exact Or.inl (hy ▸ List.mem_cons_self x xs)
      · rcases ih y hy with h | ⟨z, hz, hpz, hyz⟩
        · exact Or.inl (List.mem_cons_of_mem x h)
        · exact Or.inr ⟨z, List.mem_cons_of_mem x hz, hpz, hyz⟩

theorem find?_of_find?_key {α : Type} (key : α → Nat) (i : Nat) (p : α → Bool)
    (hp : ∀ x, p x = true → key x = i) (xs : List α) (e : α)
    (hfind : xs.find? (fun y => key y == i) = some e) (hpe : p e = true) :
    xs.find? p = some e := by
  induction xs with
  | nil => simp at hfind
  | cons x xs ih =>
    by_cases hx : (key x == i) = true
    · simp only [List.find?, hx, Option.some.injEq] at hfind
      subst hfind
      simp only [List.find?, hpe]
    · simp only [Bool.not_eq_true] at hx
      simp only [List.find?, hx] at hfind
      have hpx : p x = false := by
        cases hq : p x
        · rfl
        · have hki : (key x == i) = true := by simp [hp x hq]
          exact absurd hki (by simp [hx])
      simp only [List.find?, hpx]
      exact ih hfind

theorem updateFirstWhere_find?_key {α : Type} (key : α → Nat) (i : Nat) (p : α → Bool)
    (f : α → α) (hp : ∀ x, p x = true → key x = i)
    (hf : ∀ x, p x = true → key (f x) = key x) (xs : List α) (e : α)
    (hfind : xs.find? (fun y => key y == i) = some e) (hpe : p e = true) :
    (updateFirstWhere p f xs).2 = true ∧
      ((updateFirstWhere p f xs).1).find? (fun y => key y == i) = some (f e) := by
  induction xs with
  | nil => simp at hfind
  | cons x xs ih =>
    by_cases hx : (key x == i) = true
    · simp only [List.find?, hx, Option.some.injEq] at hfind
      subst hfind
      refine ⟨by simp [updateFirstWhere, hpe], ?_⟩
      simp only [updateFirstWhere, hpe, if_true, List.find?]
      simp [hf _ hpe, hx]
    · simp only [Bool.not_eq_true] at hx
      simp only [List.find?, hx] at hfind
      have hpx : p x = false := by
        cases hq : p x
        · rfl
        · have hki : (key x == i) = true := by simp [hp x hq]
          exact absurd hki (by simp [hx])
      obtain ⟨h1, h2⟩ := ih hfind
      refine ⟨by simp [updateFirstWhere, hpx, h1], ?_⟩
      simp only [updateFirstWhere, hpx, Bool.false_eq_true, if_false, List.find?, hx]
      exact h2

theorem updateFirstWhere_matched_of_find? {α : Type} (p : α → Bool) (f : α → α)
    (xs : List α) (e : α) (hfind : xs.find? p = some e) :
    (updateFirstWhere p f xs).2 = true := by
  induction xs with
  | nil => simp at hfind
  | cons x xs ih =>
    by_cases hx : p x = true
    · simp [updateFirstWhere, hx]
    · simp only [Bool.not_eq_true] at hx
      simp only [List.find?, hx] at hfind
      simp [updateFirstWhere, hx, ih hfind]

theorem updateFirstWhere_find?_first {α : Type} (key : α → Nat) (p : α → Bool)
    (f : α → α) (xs : List α) (e : α) (hfind : xs.find? p = some e)
    (hf : key (f e) = key e) (hnd : (xs.map key).Nodup) :
    ((updateFirstWhere p f xs).1).find? (fun y => key y == key e) = some (f e) := by
  induction xs with
  | nil => simp at hfind
  | cons x xs ih =>
    simp only [List.map_cons, List.nodup_cons] at hnd
    by_cases hx : p x = true
    · simp only [List.find?, hx, Option.some.injEq] at hfind
      subst hfind
      simp only [updateFirstWhere, hx, if_true, List.find?]
      simp [hf]
    · simp only [Bool.not_eq_true] at hx
      simp only [List.find?, hx] at hfind
      have hmem : e ∈ xs := List.mem_of_find?_eq_some hfind
      have hne : (key x == key e) = false := by
        have hneq : key x ≠ key e := by
          intro hcontra
          exact hnd.1 (hcontra ▸ List.mem_map_of_mem key hmem)
        simp [hneq]
      simp only [updateFirstWhere, hx, Bool.false_eq_true, if_false, List.find?, hne]
      exact ih hfind hnd.2

theorem updateFirstWhere_any_false_after {α : Type} (key : α → Nat) (i : Nat)
    (p : α → Bool) (f : α → α) (hp : ∀ x, p x = true → key x = i) (xs : List α)
    (hnd : (xs.map key).Nodup) (hkill : ∀ x ∈ xs, p x = true → p (f x) = false) :
    ((updateFirstWhere p f xs).1).any p = false := by
  induction xs with
  | nil => rfl
  | cons x xs ih =>
    simp only [List.map_cons, List.nodup_cons] at hnd
    by_cases hx : p x = true
    · simp only [updateFirstWhere, hx, if_true, List.any_cons, Bool.or_eq_false_iff]
      refine ⟨hkill x (List.mem_cons_self x xs) hx, ?_⟩
      cases hq : xs.any p
      · rfl
      · obtain ⟨y, hy, hpy⟩ := List.any_eq_true.mp hq
        have hkeys : key x = key y := (hp x hx).trans (hp y hpy).symm
        exact absurd (hkeys ▸ List.mem_map_of_mem key hy) hnd.1
    · simp only [Bool.not_eq_true] at hx
      simp only [updateFirstWhere, hx, Bool.false_eq_true, if_false, List.any_cons, hx,
        Bool.false_or]
      exact ih hnd.2 (fun y hy => hkill y (List.mem_cons_of_mem x hy))

theorem find?_key_of_mem {α : Type} (key : α → Nat) (xs : List α) (x : α)
    (hmem : x ∈ xs) (hnd : (xs.map key).Nodup) :
    xs.find? (fun y => key y == key x) = some x := by
  induction xs with
  | nil => simp at hmem
  | cons a xs ih =>
    simp only [List.map_cons, List.nodup_cons] at hnd
    rcases List.mem_cons.mp hmem with h | h
    · subst h
      simp [List.find?]
    · have hne : (key a == key x) = false := by
        have hneq : key a ≠ key x := by
          intro hcontra
          exact hnd.1 (hcontra ▸ List.mem_map_of_mem key h)
        simp [hneq]
      simp only [List.find?, hne]
      exact ih h hnd.2

theorem eq_of_mem_key_nodup {α : Type} (key : α → Nat) (xs : List α)
    (hnd : (xs.map key).Nodup) (x y : α) (hx : x ∈ xs) (hy : y ∈ xs)
    (hkey : key x = key y) : x = y := by
  induction xs with
  | nil => simp at hx
  | cons a xs ih =>
    simp only [List.map_cons, List.nodup_cons] at hnd
    rcases List.mem_cons.mp hx with h | h <;> rcases List.mem_cons.mp hy with h' | h'
    · rw [h, h']
    · exact absurd (h ▸ hkey ▸ List.mem_map_of_mem key h') (h ▸ hnd.1)
    · exact absurd (h' ▸ hkey ▸ List.mem_map_of_mem key h) (h' ▸ hnd.1)
    · exact ih hnd.2 h h'

/-! Lemmas about the slot store primitives. -/

theorem lockSlot_bookings (db : DB) (d i : Nat) (sp : String) :
    (lockSlot db d i sp).1.bookings = db.bookings := rfl

theorem lockSlot_games (db : DB) (d i : Nat) (sp : String) :
    (lockSlot db d i sp).1.games = db.games := rfl

theorem releaseSlot_bookings (db : DB) (d i : Nat) :
    (releaseSlot db d i).bookings = db.bookings := rfl

theorem releaseSlot_games (db : DB) (d i : Nat) :
    (releaseSlot db d i).games = db.games := rfl

theorem saveBooking_timeSlots (db : DB) (b : Booking) :
    (saveBooking db b).timeSlots = db.timeSlots := rfl

theorem saveGame_timeSlots (db : DB) (g : Game) :
    (saveGame db g).timeSlots = db.timeSlots := rfl

theorem saveGame_bookings (db : DB) (g : Game) :
    (saveGame db g).bookings = db.bookings := rfl

theorem saveBooking_games (db : DB) (b : Booking) :
    (saveBooking db b).games = db.games := rfl

theorem slotIn_eq_of_timeSlots_eq (db db2 : DB) (h : db.timeSlots = db2.timeSlots)
    (d i : Nat) : slotIn db d i = slotIn db2 d i := by
  simp [slotIn, findTimeSlot, h]

theorem slotMatchesAvailable_id (i : Nat) (s : SlotEntry)
    (h : slotMatchesAvailable i s = true) : s.id = i := by
  simp only [slotMatchesAvailable, Bool.and_eq_true, beq_iff_eq] at h
  exact h.1

theorem slotMatchesId_id (i : Nat) (s : SlotEntry)
    (h : slotMatchesId i s = true) : s.id = i := by
  simpa [slotMatchesId] using h

theorem slotMatchesAvailable_kill (i : Nat) (sp : String) (s : SlotEntry) :
    slotMatchesAvailable i (setSlotBooked sp s) = false := by
  simp [slotMatchesAvailable, setSlotBooked]

theorem lockDocMatch_id (d i : Nat) (t : TimeSlotDoc)
    (h : lockDocMatch d i t = true) : t.id = d := by
  simp only [lockDocMatch, Bool.and_eq_true, beq_iff_eq] at h
  exact h.1

theorem releaseDocMatch_id (d i : Nat) (t : TimeSlotDoc)
    (h : releaseDocMatch d i t = true) : t.id = d := by
  simp only [releaseDocMatch, Bool.and_eq_true, beq_iff_eq] at h
  exact h.1

theorem lockSlot_no_match (db : DB) (d i : Nat) (sp : String)
    (h : canLock db d i = false) : lockSlot db d i sp = (db, false) := by
  unfold canLock at h
  unfold lockSlot
  rw [updateFirstWhere_of_any_false _ _ _ h]

theorem lockSlot_fst_of_not_matched (db : DB) (d i : Nat) (sp : String)
    (h : (lockSlot db d i sp).2 = false) : (lockSlot db d i sp).1 = db := by
  simp only [lockSlot] at h ⊢
  rw [updateFirstWhere_fst_of_not_matched _ _ _ h]

theorem canLock_of_slotIn_available (db : DB) (d i : Nat) (e : SlotEntry)
    (hfound : slotIn db d i = some e) (he : e.status = SlotStatus.available) :
    canLock db d i = true := by
  unfold slotIn findTimeSlot at hfound
  cases hts : db.timeSlots.find? (fun t => t.id == d) with
  | none => simp [hts] at hfound
  | some t =>
    simp only [hts, Option.bind] at hfound
    have htmem : t ∈ db.timeSlots := List.mem_of_find?_eq_some hts
    have htid := List.find?_some hts
    have hemem : e ∈ t.slots := List.mem_of_find?_eq_some hfound
    have heid := List.find?_some hfound
    unfold canLock
    apply List.any_eq_true.mpr
    refine ⟨t, htmem, ?_⟩
    unfold lockDocMatch
    simp only [htid, Bool.true_and]
    apply List.any_eq_true.mpr
    exact ⟨e, hemem, by simp [slotMatchesAvailable, heid, he]⟩

theorem lockSlot_of_available (db : DB) (d i : Nat) (sp : String) (e : SlotEntry)
    (hfound : slotIn db d i = some e) (he : e.status = SlotStatus.available) :
    (lockSlot db d i sp).2 = true ∧
      slotIn (lockSlot db d i sp).1 d i = some (setSlotBooked sp e) := by
  unfold slotIn findTimeSlot at hfound
  cases hts : db.timeSlots.find? (fun t => t.id == d) with
  | none => simp [hts] at hfound
  | some t =>
    simp only [hts, Option.bind] at hfound
    have hemem : e ∈ t.slots := List.mem_of_find?_eq_some hfound
    have heid := List.find?_some hfound
    have htid := List.find?_some hts
    have hpe_slot : slotMatchesAvailable i e = true := by
      simp [slotMatchesAvailable, heid, he]
    have hslot := updateFirstWhere_find?_key SlotEntry.id i (slotMatchesAvailable i)
      (setSlotBooked sp) (fun s hs => slotMatchesAvailable_id i s hs)
      (fun s _ => rfl) t.slots e hfound hpe_slot
    have hpe_doc : lockDocMatch d i t = true := by
      unfold lockDocMatch
      simp only [htid, Bool.true_and]
      exact List.any_eq_true.mpr ⟨e, hemem, hpe_slot⟩
    have hdoc := updateFirstWhere_find?_key TimeSlotDoc.id d (lockDocMatch d i)
      (lockDocUpdate i sp) (fun t2 h2 => lockDocMatch_id d i t2 h2)
      (fun t2 _ => rfl) db.timeSlots t hts hpe_doc
    constructor
    · exact hdoc.1
    · unfold slotIn findTimeSlot lockSlot
      simp only [hdoc.2, Option.bind]
      exact hslot.2

theorem releaseSlot_slotIn (db : DB) (d i : Nat) (e : SlotEntry)
    (hfound : slotIn db d i = some e) :
    slotIn (releaseSlot db d i) d i = some (setSlotAvailable e) := by
  unfold slotIn findTimeSlot at hfound
  cases hts : db.timeSlots.find? (fun t => t.id == d) with
  | none => simp [hts] at hfound
  | some t =>
    simp only [hts, Option.bind] at hfound
    have hemem : e ∈ t.slots := List.mem_of_find?_eq_some hfound
    have heid := List.find?_some hfound
    have htid := List.find?_some hts
    have hpe_slot : slotMatchesId i e = true := heid
    have hslot := updateFirstWhere_find?_key SlotEntry.id i (slotMatchesId i)
      setSlotAvailable (fun s hs => slotMatchesId_id i s hs)
      (fun s _ => rfl) t.slots e hfound hpe_slot
    have hpe_doc : releaseDocMatch d i t = true := by
      unfold releaseDocMatch
      simp only [htid, Bool.true_and]
      exact List.any_eq_true.mpr ⟨e, hemem, hpe_slot⟩
    have hdoc := updateFirstWhere_find?_key TimeSlotDoc.id d (releaseDocMatch d i)
      (releaseDocUpdate i) (fun t2 h2 => releaseDocMatch_id d i t2 h2)
      (fun t2 _ => rfl) db.timeSlots t hts hpe_doc
    unfold slotIn findTimeSlot releaseSlot
    simp only [hdoc.2, Option.bind]
    exact hslot.2

theorem lockSlot_canLock_after (db : DB) (d i : Nat) (sp : String) (hwf : dbWF db) :
    canLock (lockSlot db d i sp).1 d i = false := by
  unfold canLock lockSlot
  apply updateFirstWhere_any_false_after TimeSlotDoc.id d (lockDocMatch d i)
    (lockDocUpdate i sp) (fun t h => lockDocMatch_id d i t h) db.timeSlots hwf.1
  intro t htmem hmatch
  unfold lockDocMatch lockDocUpdate
  have hany : ((updateFirstWhere (slotMatchesAvailable i) (setSlotBooked sp) t.slots).1).any
      (slotMatchesAvailable i) = false :=
    updateFirstWhere_any_false_after SlotEntry.id i (slotMatchesAvailable i)
      (setSlotBooked sp) (fun s hs => slotMatchesAvailable_id i s hs) t.slots
      (hwf.2 t htmem) (fun s _ _ => slotMatchesAvailable_kill i sp s)
  simp [hany]

theorem lockSlot_wf (db : DB) (d i : Nat) (sp : String) (hwf : dbWF db) :
    dbWF (lockSlot db d i sp).1 := by
  constructor
  · show (((updateFirstWhere (lockDocMatch d i) (lockDocUpdate i sp) db.timeSlots).1).map
      TimeSlotDoc.id).Nodup
    rw [updateFirstWhere_map_key TimeSlotDoc.id (lockDocMatch d i) (lockDocUpdate i sp)
      (fun t _ => rfl)]
    exact hwf.1
  · intro t htmem
    rcases updateFirstWhere_mem (lockDocMatch d i) (lockDocUpdate i sp) db.timeSlots t htmem
      with h | ⟨x, hx, _, hteq⟩
    · exact hwf.2 t h
    · subst hteq
      show (((updateFirstWhere (slotMatchesAvailable i) (setSlotBooked sp) x.slots).1).map
        SlotEntry.id).Nodup
      rw [updateFirstWhere_map_key SlotEntry.id (slotMatchesAvailable i) (setSlotBooked sp)
        (fun s _ => rfl)]
      exact hwf.2 x hx

theorem canLock_false_of_booked (db : DB) (hwf : dbWF db) (t : TimeSlotDoc) (e : SlotEntry)
    (ht : t ∈ db.timeSlots) (heMem : e ∈ t.slots) (hst : e.status = SlotStatus.booked) :
    canLock db t.id e.id = false := by
  cases hq : canLock db t.id e.id with
  | false => rfl
  | true =>
    exfalso
    obtain ⟨t2, ht2, hmatch⟩ := List.any_eq_true.mp hq
    have ht2id : t2.id = t.id := lockDocMatch_id _ _ _ hmatch
    have ht2eq : t2 = t := eq_of_mem_key_nodup TimeSlotDoc.id db.timeSlots hwf.1 t2 t ht2 ht ht2id
    subst ht2eq
    unfold lockDocMatch at hmatch
    rw [Bool.and_eq_true] at hmatch
    obtain ⟨_, hany⟩ := hmatch
    obtain ⟨s, hs, hsm⟩ := List.any_eq_true.mp hany
    have hsid : s.id = e.id := slotMatchesAvailable_id _ _ hsm
    have hse : s = e := eq_of_mem_key_nodup SlotEntry.id t2.slots (hwf.2 t2 ht2) s e hs heMem hsid
    subst hse
    simp [slotMatchesAvailable, hst] at hsm

theorem slotIn_of_mem (db : DB) (hwf : dbWF db) (t : TimeSlotDoc) (e : SlotEntry)
    (ht : t ∈ db.timeSlots) (heMem : e ∈ t.slots) :
    slotIn db t.id e.id = some e := by
  unfold slotIn findTimeSlot
  rw [find?_key_of_mem TimeSlotDoc.id db.timeSlots t ht hwf.1]
  simp only [Option.bind]
  exact find?_key_of_mem SlotEntry.id t.slots e heMem (hwf.2 t ht)

theorem runLockAttempts_all_false (db : DB) (d i : Nat) (sports : List String)
    (h : canLock db d i = false) :
    ∀ b ∈ (runLockAttempts db d i sports).2, b = false := by
  induction sports generalizing db with
  | nil => intro b hb; simp [runLockAttempts] at hb
  | cons sp rest ih =>
    intro b hb
    simp only [runLockAttempts, lockSlot_no_match db d i sp h] at hb
    rcases List.mem_cons.mp hb with h1 | h1
    · exact h1
    · exact ih db h b h1

theorem runLockAttempts_count (db : DB) (d i : Nat) (hwf : dbWF db) (sports : List String) :
    ((runLockAttempts db d i sports).2).count true ≤ 1 := by
  induction sports generalizing db with
  | nil => simp [runLockAttempts]
  | cons sp rest ih =>
    cases hm : (lockSlot db d i sp).2 with
    | false =>
      have hfst := lockSlot_fst_of_not_matched db d i sp hm
      simp only [runLockAttempts, hm, hfst, List.count_cons]
      simpa using ih db hwf
    | true =>
      have hafter := lockSlot_canLock_after db d i sp hwf
      have hall := runLockAttempts_all_false (lockSlot db d i sp).1 d i rest hafter
      have hzero : ((runLockAttempts (lockSlot db d i sp).1 d i rest).2).count true = 0 := by
        apply List.count_eq_zero.mpr
        intro hmem
        exact absurd (hall true hmem) (by simp)
      simp only [runLockAttempts, hm, List.count_cons, hzero]
      simp

/-! Lemmas about the booking and game stores. -/

theorem findBookingById_eq_of_bookings_eq (db db2 : DB) (h : db.bookings = db2.bookings)
    (bid : Nat) : findBookingById db bid = findBookingById db2 bid := by
  simp [findBookingById, h]

theorem findGame_eq_of_games_eq (db db2 : DB) (h : db.games = db2.games) (gid : Nat) :
    findGame db gid = findGame db2 gid := by
  simp [findGame, h]

theorem saveBooking_find (db : DB) (b new : Booking) (hmem : b ∈ db.bookings)
    (hnd : (db.bookings.map Booking.id).Nodup) (hid : new.id = b.id) :
    findBookingById (saveBooking db new) b.id = some new := by
  unfold findBookingById saveBooking
  have hfind : db.bookings.find? (fun y => y.id == b.id) = some b :=
    find?_key_of_mem Booking.id db.bookings b hmem hnd
  have hres := updateFirstWhere_find?_key Booking.id b.id (fun x => x.id == new.id)
    (fun _ => new)
    (fun x hx => by rw [beq_iff_eq.mp hx, hid])
    (fun x hx => by rw [beq_iff_eq.mp hx])
    db.bookings b hfind (by simp [hid])
  exact hres.2

theorem saveGame_find (db : DB) (g new : Game) (hmem : g ∈ db.games)
    (hnd : (db.games.map Game.id).Nodup) (hid : new.id = g.id) :
    findGame (saveGame db new) g.id = some new := by
  unfold findGame saveGame
  have hfind : db.games.find? (fun y => y.id == g.id) = some g :=
    find?_key_of_mem Game.id db.games g hmem hnd
  have hres := updateFirstWhere_find?_key Game.id g.id (fun x => x.id == new.id)
    (fun _ => new)
    (fun x hx => by rw [beq_iff_eq.mp hx, hid])
    (fun x hx => by rw [beq_iff_eq.mp hx])
    db.games g hfind (by simp [hid])
  exact hres.2

theorem expiredUpdate_timeSlots (db : DB) (found : Option Booking) (meta : EventMetadata) :
    (expiredBookingAndGameUpdate db found meta).timeSlots = db.timeSlots := by
  unfold expiredBookingAndGameUpdate
  cases found with
  | none => rfl
  | some b =>
    cases hg : meta.gameId with
    | none => simp [hg, saveBooking_timeSlots]
    | some gid =>
      cases hfg : findGame (saveBooking db { b with status := BookingStatus.Failed }) gid with
      | none => simp [hg, hfg, saveBooking_timeSlots]
      | some game => simp [hg, hfg, saveGame_timeSlots, saveBooking_timeSlots]

theorem expiredUpdate_bookings_some (db : DB) (b : Booking) (meta : EventMetadata) :
    (expiredBookingAndGameUpdate db (some b) meta).bookings =
      (saveBooking db { b with status := BookingStatus.Failed }).bookings := by
  unfold expiredBookingAndGameUpdate
  cases hg : meta.gameId with
  | none => simp [hg]
  | some gid =>
    cases hfg : findGame (saveBooking db { b with status := BookingStatus.Failed }) gid with
    | none => simp [hg, hfg]
    | some game => simp [hg, hfg, saveGame_bookings]

theorem expiredUpdate_games_some_game (db : DB) (b : Booking) (meta : EventMetadata)
    (gid : Nat) (g : Game) (hg : meta.gameId = some gid) (hfg : findGame db gid = some g) :
    (expiredBookingAndGameUpdate db (some b) meta).games =
      (saveGame db { g with status := "Open" }).games := by
  unfold expiredBookingAndGameUpdate
  have hfg2 : findGame (saveBooking db { b with status := BookingStatus.Failed }) gid = some g := by
    rw [findGame_eq_of_games_eq _ db (saveBooking_games db _) gid]
    exact hfg
  simp only [hg, hfg2]
  unfold saveGame
  simp [saveBooking_games]

theorem expiredFallbackRelease_bookings (db1 : DB) (found : Option Booking) :
    (expiredFallbackRelease db1 found).bookings = db1.bookings := by
  unfold expiredFallbackRelease
  cases found with
  | none => rfl
  | some b =>
    cases hsv : b.subVenueId with
    | none => simp [hsv]
    | some sv => simp [hsv]

/-! Concrete sample data used by the witnesses and counterexamples. -/

def sampleSlot : SlotEntry :=
  { id := 5
    startTime := 1000000000000
    endTime := 1000003600000
    status := SlotStatus.available
    bookedForSport := none
    prices := Prices.pricesMap [("Cricket", 1000)] }

def sampleDoc : TimeSlotDoc :=
  { id := 1, subVenue := 2, date := dayKey 1000000000000, slots := [sampleSlot] }

def sampleDB : DB :=
  { timeSlots := [sampleDoc]
    bookings := []
    games := []
    subVenues := [{ id := 2, venue := 3 }]
    venues := [{ id := 3, coordinates := [10, 20] }] }

def bookedSlot : SlotEntry :=
  { sampleSlot with status := SlotStatus.booked, bookedForSport := some "Cricket" }

def bookedDoc : TimeSlotDoc := { sampleDoc with slots := [bookedSlot] }

def bookedDB : DB := { sampleDB with timeSlots := [bookedDoc] }

def sampleReq : DirectReq :=
  { subVenueId := some 2
    timeSlotDocId := some 1
    slotId := some 5
    sport := some "Cricket"
    userId := 9 }

def sampleEnv : DirectEnv :=
  { now := 999999000000
    bypassStripe := false
    freshBookingId := 77
    stripeCreate := Except.ok { id := "sess_1", url := "pay_url" }
    bookingCreateFails := none }

def failEnv : DirectEnv := { sampleEnv with stripeCreate := Except.error ⟨"stripe down", 500⟩ }

def bypassFailEnv : DirectEnv :=
  { sampleEnv with bypassStripe := true, bookingCreateFails := some ⟨"db down", 500⟩ }

def pendingBooking : Booking :=
  { id := 42
    user := 9
    venueId := 3
    subVenueId := some 2
    sport := "Cricket"
    startTime := 1000000000000
    endTime := 1000003600000
    timeSlotDocId := none
    slotId := none
    amount := 100000
    currency := "inr"
    stripeSessionId := "sess_1"
    stripePaymentIntentId := none
    status := BookingStatus.Pending
    gameId := none }

def pendingBookedDB : DB := { bookedDB with bookings := [pendingBooking] }

def failedBooking : Booking := { pendingBooking with status := BookingStatus.Failed }

def failedDB : DB := { sampleDB with bookings := [failedBooking] }

def paidBooking : Booking := { pendingBooking with status := BookingStatus.Paid }

def paidDB : DB := { bookedDB with bookings := [paidBooking] }

def retryEnvFail : RetryEnv :=
  { now := 999999000000
    stripeCreate := Except.error ⟨"stripe down", 500⟩
    bookingSaveFails := none }

def retryEnvOk : RetryEnv :=
  { retryEnvFail with stripeCreate := Except.ok { id := "sess_new", url := "u2" } }

def retryReq : RetryReq := { bookingId := some 42, userId := 9 }

def sampleGame : Game := { id := 8, status := "Full", bookingStatus := "NotBooked" }

def gamePendingDB : DB :=
  { bookedDB with bookings := [pendingBooking], games := [sampleGame] }

def expiredMeta : EventMetadata :=
  { mtype := some "direct", gameId := none, timeSlotDocId := some 1, slotId := some 5 }

def expiredMetaGame : EventMetadata :=
  { mtype := some "game", gameId := some 8, timeSlotDocId := some 1, slotId := some 5 }

def expiredMetaNone : EventMetadata :=
  { mtype := none, gameId := none, timeSlotDocId := none, slotId := none }

def expiredEnv : WebhookEnv :=
  { constructEvent := Except.ok (StripeEvent.checkoutSessionExpired "sess_1" expiredMeta) }

def expiredEnvGame : WebhookEnv :=
  { constructEvent := Except.ok (StripeEvent.checkoutSessionExpired "sess_1" expiredMetaGame) }

def expiredEnvNone : WebhookEnv :=
  { constructEvent := Except.ok (StripeEvent.checkoutSessionExpired "sess_1" expiredMetaNone) }

/-! The claim theorems. -/

/-- C9: the webhook verifies the shared-secret signature before trusting
any payload contents; when verification fails it responds 400 at once and
performs no read or write of bookings, slots or games: the datastore is
returned unchanged and no event handler runs. -/
theorem C9_signature_gate (env : WebhookEnv) (db : DB) (msg : String)
    (h : env.constructEvent = Except.error msg) :
    stripeWebhook env db = (db, 400) := by
  unfold stripeWebhook
  rw [h]

/-- Witness for C9 at a concrete rejected delivery. -/
theorem C9_signature_gate_witness :
    stripeWebhook { constructEvent := Except.error "bad signature" } paidDB = (paidDB, 400) :=
  C9_signature_gate { constructEvent := Except.error "bad signature" } paidDB "bad signature" rfl

/-- C10: in the expired handler, whenever the event metadata carries both
timeSlotDocId and slotId, the slot is set available with bookedForSport
cleared unconditionally: the statement needs no hypothesis about a
matching booking, about any game, or about the current status of the slot. -/
theorem C10_unconditional_metadata_release (env : WebhookEnv) (db : DB) (sid : String)
    (meta : EventMetadata) (docId slotId : Nat) (e : SlotEntry)
    (henv : env.constructEvent = Except.ok (StripeEvent.checkoutSessionExpired sid meta))
    (hdoc : meta.timeSlotDocId = some docId) (hslot : meta.slotId = some slotId)
    (hin : slotIn db docId slotId = some e) :
    slotIn (stripeWebhook env db).1 docId slotId = some (setSlotAvailable e) := by
  unfold stripeWebhook
  rw [henv]
  show slotIn (handleSessionExpired db sid meta) docId slotId = some (setSlotAvailable e)
  unfold handleSessionExpired
  simp only [hdoc, hslot]
  have hts : (expiredBookingAndGameUpdate db (findBookingBySession db sid) meta).timeSlots =
      db.timeSlots := expiredUpdate_timeSlots db (findBookingBySession db sid) meta
  have hin1 : slotIn (expiredBookingAndGameUpdate db (findBookingBySession db sid) meta)
      docId slotId = some e := by
    rw [slotIn_eq_of_timeSlots_eq _ db hts docId slotId]
    exact hin
  exact releaseSlot_slotIn _ docId slotId e hin1

/-- Witness for C10: the release fires even though no booking matches the
session and the slot is currently booked. -/
theorem C10_unconditional_metadata_release_witness :
    slotIn (stripeWebhook expiredEnv bookedDB).1 1 5 = some (setSlotAvailable bookedSlot) :=
  C10_unconditional_metadata_release expiredEnv bookedDB "sess_1" expiredMeta 1 5 bookedSlot
    rfl rfl rfl (by decide)

/-- Reduction of `createDirectBooking` to its try block when every
precondition up to and including the atomic lock holds. -/
theorem createDirectBooking_reaches_try (env : DirectEnv) (db : DB) (req : DirectReq)
    (svId docId slotId : Nat) (sport : String) (ts : TimeSlotDoc) (slot : SlotEntry)
    (subVenue : SubVenue) (venue : Venue) (price : Nat)
    (h1 : req.subVenueId = some svId) (h2 : req.timeSlotDocId = some docId)
    (h3 : req.slotId = some slotId) (h4 : req.sport = some sport)
    (h5 : findTimeSlot db docId = some ts)
    (h6 : ts.slots.find? (fun s => s.id == slotId) = some slot)
    (h7 : slot.status = SlotStatus.available)
    (h8 : ¬ slot.startTime < env.now)
    (h9 : slot.prices.lookup sport = some price) (h10 : price ≠ 0)
    (h11 : db.subVenues.find? (fun sv => sv.id == svId) = some subVenue)
    (h12 : db.venues.find? (fun v => v.id == subVenue.venue) = some venue) :
    createDirectBooking env db req =
      directTryBlock env (lockSlot db docId slotId sport).1 svId docId slotId sport
        req.userId slot venue (price * 100) ∧
    slotIn (lockSlot db docId slotId sport).1 docId slotId = some (setSlotBooked sport slot) := by
  have hslotIn : slotIn db docId slotId = some slot := by
    unfold slotIn
    rw [h5]
    simp only [Option.bind]
    exact h6
  have hlock := lockSlot_of_available db docId slotId sport slot hslotIn h7
  refine ⟨?_, hlock.2⟩
  unfold createDirectBooking
  simp only [h1, h2, h3, h4, h5, h6, h9, h11, h12]
  rw [if_neg (show ¬ slot.status ≠ SlotStatus.available from fun hc => hc h7)]
  rw [if_neg h8, if_neg h10, if_pos hlock.1]

/-- C2: in createDirectBooking, when payment-session creation or booking
persistence throws after the conditional lock succeeded, the unconditional
revert is issued for that exact slot and the original error propagates:
the returned error is the one the failing step threw, the slot is
observably available with bookedForSport cleared, and no booking record
was created.  The statement covers every failing execution after the
lock: a session-creation failure, a persistence failure after a created
session, and a persistence failure in demo-bypass mode, where no session
is created but Booking.create still runs after the lock. -/
theorem C2_compensation_on_failure (env : DirectEnv) (db : DB) (req : DirectReq)
    (svId docId slotId : Nat) (sport : String) (ts : TimeSlotDoc) (slot : SlotEntry)
    (subVenue : SubVenue) (venue : Venue) (price : Nat) (e : AppError)
    (h1 : req.subVenueId = some svId) (h2 : req.timeSlotDocId = some docId)
    (h3 : req.slotId = some slotId) (h4 : req.sport = some sport)
    (h5 : findTimeSlot db docId = some ts)
    (h6 : ts.slots.find? (fun s => s.id == slotId) = some slot)
    (h7 : slot.status = SlotStatus.available)
    (h8 : ¬ slot.startTime < env.now)
    (h9 : slot.prices.lookup sport = some price) (h10 : price ≠ 0)
    (h11 : db.subVenues.find? (fun sv => sv.id == svId) = some subVenue)
    (h12 : db.venues.find? (fun v => v.id == subVenue.venue) = some venue)
    (h13 : (env.bypassStripe = false ∧
        (env.stripeCreate = Except.error e ∨
          ((∃ s, env.stripeCreate = Except.ok s) ∧ env.bookingCreateFails = some e))) ∨
      (env.bypassStripe = true ∧ env.bookingCreateFails = some e)) :
    (createDirectBooking env db req).2.2 = Except.error e ∧
      slotIn (createDirectBooking env db req).1 docId slotId = some (setSlotAvailable slot) ∧
      (createDirectBooking env db req).1.bookings = db.bookings := by
  obtain ⟨hred, hbooked⟩ := createDirectBooking_reaches_try env db req svId docId slotId
    sport ts slot subVenue venue price h1 h2 h3 h4 h5 h6 h7 h8 h9 h10 h11 h12
  rw [hred]
  unfold directTryBlock
  have hrel : slotIn (releaseSlot (lockSlot db docId slotId sport).1 docId slotId)
      docId slotId = some (setSlotAvailable slot) :=
    releaseSlot_slotIn (lockSlot db docId slotId sport).1 docId slotId
      (setSlotBooked sport slot) hbooked
  rcases h13 with ⟨hbp, herr | ⟨⟨s, hok⟩, hbf⟩⟩ | ⟨hbp, hbf⟩
  · rw [hbp]
    simp only [Bool.false_eq_true, if_false, herr]
    exact ⟨by trivial, hrel, by rw [releaseSlot_bookings, lockSlot_bookings]⟩
  · rw [hbp]
    simp only [Bool.false_eq_true, if_false, hok, hbf]
    exact ⟨by trivial, hrel, by rw [releaseSlot_bookings, lockSlot_bookings]⟩
  · rw [hbp]
    simp only [if_true, hbf]
    exact ⟨by trivial, hrel, by rw [releaseSlot_bookings, lockSlot_bookings]⟩

/-- Witness for C2: session creation fails after the lock in normal mode,
and Booking.create fails after the lock in demo-bypass mode; in both runs
the slot comes back available and the failing step's error is surfaced. -/
theorem C2_compensation_on_failure_witness :
    ((createDirectBooking failEnv sampleDB sampleReq).2.2 =
        Except.error ⟨"stripe down", 500⟩ ∧
      slotIn (createDirectBooking failEnv sampleDB sampleReq).1 1 5 =
        some (setSlotAvailable sampleSlot) ∧
      (createDirectBooking failEnv sampleDB sampleReq).1.bookings = sampleDB.bookings) ∧
    ((createDirectBooking bypassFailEnv sampleDB sampleReq).2.2 =
        Except.error ⟨"db down", 500⟩ ∧
      slotIn (createDirectBooking bypassFailEnv sampleDB sampleReq).1 1 5 =
        some (setSlotAvailable sampleSlot) ∧
      (createDirectBooking bypassFailEnv sampleDB sampleReq).1.bookings =
        sampleDB.bookings) :=
  ⟨C2_compensation_on_failure failEnv sampleDB sampleReq 2 1 5 "Cricket" sampleDoc sampleSlot
     { id := 2, venue := 3 } { id := 3, coordinates := [10, 20] } 1000 ⟨"stripe down", 500⟩
     rfl rfl rfl rfl (by decide) (by decide) rfl (by decide) rfl (by decide)
     (by decide) (by decide) (Or.inl ⟨rfl, Or.inl rfl⟩),
   C2_compensation_on_failure bypassFailEnv sampleDB sampleReq 2 1 5 "Cricket" sampleDoc
     sampleSlot { id := 2, venue := 3 } { id := 3, coordinates := [10, 20] } 1000
     ⟨"db down", 500⟩
     rfl rfl rfl rfl (by decide) (by decide) rfl (by decide) rfl (by decide)
     (by decide) (by decide) (Or.inr ⟨rfl, rfl⟩)⟩

/-- C8: the per-sport price is read through the two-representation lookup
(Map accessor when the price data is a Map, plain property otherwise);
booking an available future slot with price p for the requested sport in
normal mode creates a booking with amount p * 100 in minor units and
status Pending, and sets the slot to booked for that sport. -/
theorem C8_price_lookup_and_booking (env : DirectEnv) (db : DB) (req : DirectReq)
    (svId docId slotId : Nat) (sport : String) (ts : TimeSlotDoc) (slot : SlotEntry)
    (subVenue : SubVenue) (venue : Venue) (price : Nat) (session : StripeSession)
    (h1 : req.subVenueId = some svId) (h2 : req.timeSlotDocId = some docId)
    (h3 : req.slotId = some slotId) (h4 : req.sport = some sport)
    (h5 : findTimeSlot db docId = some ts)
    (h6 : ts.slots.find? (fun s => s.id == slotId) = some slot)
    (h7 : slot.status = SlotStatus.available)
    (h8 : ¬ slot.startTime < env.now)
    (h9 : slot.prices.lookup sport = some price) (h10 : price ≠ 0)
    (h11 : db.subVenues.find? (fun sv => sv.id == svId) = some subVenue)
    (h12 : db.venues.find? (fun v => v.id == subVenue.venue) = some venue)
    (h13 : env.bypassStripe = false)
    (h14 : env.stripeCreate = Except.ok session)
    (h15 : env.bookingCreateFails = none) :
    (createDirectBooking env db req).1.bookings = db.bookings ++
      [mkDirectBooking env.freshBookingId req.userId venue.id svId sport slot docId slotId
        (price * 100) session.id none BookingStatus.Pending] ∧
    slotIn (createDirectBooking env db req).1 docId slotId = some (setSlotBooked sport slot) ∧
    (createDirectBooking env db req).2.2 = Except.ok
      { statusCode := 201, url := some session.url, bookingId := env.freshBookingId } := by
  obtain ⟨hred, hbooked⟩ := createDirectBooking_reaches_try env db req svId docId slotId
    sport ts slot subVenue venue price h1 h2 h3 h4 h5 h6 h7 h8 h9 h10 h11 h12
  rw [hred]
  unfold directTryBlock
  rw [h13]
  simp only [Bool.false_eq_true, if_false, h14, h15]
  refine ⟨?_, hbooked, by trivial⟩
  rw [lockSlot_bookings]

/-- Witness for C8 at the concrete scenario of the spec: price 1000 for
Cricket yields amount 100000, status Pending, slot booked. -/
theorem C8_price_lookup_and_booking_witness :
    (createDirectBooking sampleEnv sampleDB sampleReq).1.bookings = sampleDB.bookings ++
      [mkDirectBooking 77 9 3 2 "Cricket" sampleSlot 1 5 100000 "sess_1" none
        BookingStatus.Pending] ∧
    slotIn (createDirectBooking sampleEnv sampleDB sampleReq).1 1 5 =
      some (setSlotBooked "Cricket" sampleSlot) ∧
    (createDirectBooking sampleEnv sampleDB sampleReq).2.2 = Except.ok
      { statusCode := 201, url := some "pay_url", bookingId := 77 } :=
  C8_price_lookup_and_booking sampleEnv sampleDB sampleReq 2 1 5 "Cricket" sampleDoc
    sampleSlot { id := 2, venue := 3 } { id := 3, coordinates := [10, 20] } 1000
    { id := "sess_1", url := "pay_url" }
    rfl rfl rfl rfl (by decide) (by decide) rfl (by decide) rfl (by decide)
    (by decide) (by decide) rfl rfl rfl

/-- C1: for every slot entry, racing reservation attempts are decided by
the conditional lock update alone: in any serialized sequence of lock
attempts on the same slot at most one matches a document, and a
createDirectBooking attempt whose conditional update would match zero
documents fails with the 400 error about the slot being no longer
available, leaving the datastore unchanged and creating no booking. -/
theorem C1_no_double_booking :
    (∀ (db : DB) (docId slotId : Nat), dbWF db → ∀ sports : List String,
      ((runLockAttempts db docId slotId sports).2).count true ≤ 1) ∧
    (∀ (env : DirectEnv) (db : DB) (req : DirectReq) (svId docId slotId : Nat)
      (sport : String) (ts : TimeSlotDoc) (slot : SlotEntry),
      req.subVenueId = some svId → req.timeSlotDocId = some docId →
      req.slotId = some slotId → req.sport = some sport →
      findTimeSlot db docId = some ts →
      ts.slots.find? (fun s => s.id == slotId) = some slot →
      canLock db docId slotId = false →
      createDirectBooking env db req =
        (db, [], Except.error ⟨"Slot is no longer available", 400⟩)) := by
  constructor
  · intro db d i hwf sports
    exact runLockAttempts_count db d i hwf sports
  · intro env db req svId docId slotId sport ts slot h1 h2 h3 h4 h5 h6 h7
    have hslotIn : slotIn db docId slotId = some slot := by
      unfold slotIn
      rw [h5]
      simp only [Option.bind]
      exact h6
    have hstat : slot.status ≠ SlotStatus.available := by
      intro hav
      rw [canLock_of_slotIn_available db docId slotId slot hslotIn hav] at h7
      simp at h7
    unfold createDirectBooking
    simp only [h1, h2, h3, h4, h5, h6]
    rw [if_pos hstat]

/-- Witness for C1: a two-way race on an available slot admits at most one
winner, and an attempt against an already booked slot fails with the 400
conflict error and writes nothing. -/
theorem C1_no_double_booking_witness :
    ((runLockAttempts sampleDB 1 5 ["Cricket", "Football", "Cricket"]).2).count true ≤ 1 ∧
    createDirectBooking sampleEnv bookedDB sampleReq =
      (bookedDB, [], Except.error ⟨"Slot is no longer available", 400⟩) :=
  ⟨C1_no_double_booking.1 sampleDB 1 5 (by decide) ["Cricket", "Football", "Cricket"],
   C1_no_double_booking.2 sampleEnv bookedDB sampleReq 2 1 5 "Cricket" bookedDoc bookedSlot
     rfl rfl rfl rfl (by decide) (by decide) (by decide)⟩

/-- C4 (amended): retryPayment rejects a Paid booking with the 400 error
about the booking being already paid and leaves the store unchanged, and a
checkout.session.completed event leaves a Paid booking Paid; but a
checkout.session.expired event delivered for the session id of a Paid
booking sets its status to Failed: the expired handler carries no guard on
the Paid state. -/
theorem C4_paid_terminal_amended :
    (∀ (env : RetryEnv) (db : DB) (req : RetryReq) (bid : Nat) (b : Booking),
      req.bookingId = some bid →
      findBookingByIdUser db bid req.userId = some b →
      b.status = BookingStatus.Paid →
      retryPayment env db req = (db, [], Except.error ⟨"Booking is already paid", 400⟩)) ∧
    (∀ (db : DB) (sid intentId : String) (meta : EventMetadata) (b : Booking),
      (db.bookings.map Booking.id).Nodup →
      findBookingBySession db sid = some b →
      b.status = BookingStatus.Paid →
      (findBookingById (handleSessionCompleted db sid intentId meta) b.id).map Booking.status =
        some BookingStatus.Paid) ∧
    (∀ (db : DB) (sid : String) (meta : EventMetadata) (b : Booking),
      (db.bookings.map Booking.id).Nodup →
      findBookingBySession db sid = some b →
      b.status = BookingStatus.Paid →
      (findBookingById (handleSessionExpired db sid meta) b.id).map Booking.status =
        some BookingStatus.Failed) := by
  refine ⟨?_, ?_, ?_⟩
  · intro env db req bid b hbid hfind hpaid
    unfold retryPayment
    simp [hbid, hfind, hpaid]
  · intro db sid intentId meta b hnd hfind hpaid
    have hmem : b ∈ db.bookings := List.mem_of_find?_eq_some hfind
    have hsave := saveBooking_find db b
      { b with status := BookingStatus.Paid, stripePaymentIntentId := some intentId } hmem hnd rfl
    unfold handleSessionCompleted
    simp only [hfind]
    by_cases hm : meta.mtype = some "game"
    · rw [if_pos hm]
      cases hg : meta.gameId with
      | none => simp [hsave]
      | some gid =>
        cases hfg : findGame (saveBooking db { b with status := BookingStatus.Paid, stripePaymentIntentId := some intentId }) gid with
        | none => simp [hfg, hsave]
        | some game =>
          simp only [hfg]
          rw [findBookingById_eq_of_bookings_eq _ (saveBooking db { b with status := BookingStatus.Paid, stripePaymentIntentId := some intentId }) (saveGame_bookings _ _) b.id]
          simp [hsave]
    · rw [if_neg hm]
      simp [hsave]
  · intro db sid meta b hnd hfind hpaid
    have hmem : b ∈ db.bookings := List.mem_of_find?_eq_some hfind
    have hsave := saveBooking_find db b { b with status := BookingStatus.Failed } hmem hnd rfl
    unfold handleSessionExpired
    simp only [hfind]
    have hb1 : (expiredBookingAndGameUpdate db (some b) meta).bookings =
        (saveBooking db { b with status := BookingStatus.Failed }).bookings :=
      expiredUpdate_bookings_some db b meta
    have hb1find : findBookingById (expiredBookingAndGameUpdate db (some b) meta) b.id =
        some { b with status := BookingStatus.Failed } := by
      rw [findBookingById_eq_of_bookings_eq _
        (saveBooking db { b with status := BookingStatus.Failed }) hb1 b.id]
      exact hsave
    cases hdoc : meta.timeSlotDocId with
    | some docId =>
      cases hslot : meta.slotId with
      | some slotId =>
        simp only [hdoc, hslot]
        rw [findBookingById_eq_of_bookings_eq _
          (expiredBookingAndGameUpdate db (some b) meta) (releaseSlot_bookings _ _ _) b.id]
        simp [hb1find]
      | none =>
        simp only [hdoc, hslot]
        rw [findBookingById_eq_of_bookings_eq _
          (expiredBookingAndGameUpdate db (some b) meta)
          (expiredFallbackRelease_bookings _ _) b.id]
        simp [hb1find]
    | none =>
      cases hslot : meta.slotId with
      | some slotId =>
        simp only [hdoc, hslot]
        rw [findBookingById_eq_of_bookings_eq _
          (expiredBookingAndGameUpdate db (some b) meta)
          (expiredFallbackRelease_bookings _ _) b.id]
        simp [hb1find]
      | none =>
        simp only [hdoc, hslot]
        rw [findBookingById_eq_of_bookings_eq _
          (expiredBookingAndGameUpdate db (some b) meta)
          (expiredFallbackRelease_bookings _ _) b.id]
        simp [hb1find]

/-- Counterexample for C4 as stated: a Paid booking and a later
signature-verified checkout.session.expired event for its session; the
webhook flips the status from Paid to Failed, so a webhook event does
change a Paid booking. -/
theorem C4_paid_terminal_counterexample :
    (findBookingById paidDB 42).map Booking.status = some BookingStatus.Paid ∧
    (findBookingById (stripeWebhook expiredEnv paidDB).1 42).map Booking.status =
      some BookingStatus.Failed := by
  constructor
  · decide
  · decide

/-- Witness for the amended C4 at concrete inputs. -/
theorem C4_paid_terminal_witness :
    retryPayment retryEnvOk paidDB retryReq =
      (paidDB, [], Except.error ⟨"Booking is already paid", 400⟩) ∧
    (findBookingById (handleSessionCompleted paidDB "sess_1" "pi_9" expiredMetaNone) 42).map
      Booking.status = some BookingStatus.Paid ∧
    (findBookingById (handleSessionExpired paidDB "sess_1" expiredMetaNone) 42).map
      Booking.status = some BookingStatus.Failed :=
  ⟨C4_paid_terminal_amended.1 retryEnvOk paidDB retryReq 42 paidBooking rfl (by decide) rfl,
   C4_paid_terminal_amended.2.1 paidDB "sess_1" "pi_9" expiredMetaNone paidBooking
     (by decide) (by decide) rfl,
   C4_paid_terminal_amended.2.2 paidDB "sess_1" expiredMetaNone paidBooking
     (by decide) (by decide) rfl⟩

/-- C3: the compensating unlock in the error path of retryPayment runs only
when this call itself acquired the lock.  First conjunct: for a Pending
booking whose slot is already booked, a failure after the lock attempt
leaves the datastore exactly as it was, issuing no revert.  Second
conjunct: for a Failed booking whose slot was available, this call locks
it, and a failure then reverts that exact slot to available. -/
theorem C3_retry_ownership :
    (∀ (env : RetryEnv) (db : DB) (req : RetryReq) (bid : Nat) (booking : Booking)
       (svId : Nat) (ts : TimeSlotDoc) (slot : SlotEntry) (e : AppError),
      dbWF db →
      req.bookingId = some bid →
      findBookingByIdUser db bid req.userId = some booking →
      booking.status = BookingStatus.Pending →
      ¬ booking.startTime < env.now →
      booking.subVenueId = some svId →
      db.timeSlots.find? (fallbackDocMatch svId (dayKey booking.startTime)) = some ts →
      ts.slots.find? (fallbackSlotMatch booking.startTime booking.endTime) = some slot →
      slot.status = SlotStatus.booked →
      (env.stripeCreate = Except.error e ∨
        ((∃ s, env.stripeCreate = Except.ok s) ∧ env.bookingSaveFails = some e)) →
      retryPayment env db req =
        (db, [retrySessionParams booking req.userId], Except.error e)) ∧
    (∀ (env : RetryEnv) (db : DB) (req : RetryReq) (bid : Nat) (booking : Booking)
       (svId : Nat) (ts : TimeSlotDoc) (slot : SlotEntry) (e : AppError),
      dbWF db →
      req.bookingId = some bid →
      findBookingByIdUser db bid req.userId = some booking →
      booking.status = BookingStatus.Failed →
      ¬ booking.startTime < env.now →
      booking.subVenueId = some svId →
      db.timeSlots.find? (fallbackDocMatch svId (dayKey booking.startTime)) = some ts →
      ts.slots.find? (fallbackSlotMatch booking.startTime booking.endTime) = some slot →
      slot.status = SlotStatus.available →
      (env.stripeCreate = Except.error e ∨
        ((∃ s, env.stripeCreate = Except.ok s) ∧ env.bookingSaveFails = some e)) →
      (retryPayment env db req).2.2 = Except.error e ∧
        slotIn (retryPayment env db req).1 ts.id slot.id = some (setSlotAvailable slot) ∧
        (retryPayment env db req).1.bookings = db.bookings) := by
  constructor
  · intro env db req bid booking svId ts slot e hwf hbid hfind h3 h4 h5 h6 h7 h9 h10
    have htsmem : ts ∈ db.timeSlots := List.mem_of_find?_eq_some h6
    have hslotmem : slot ∈ ts.slots := List.mem_of_find?_eq_some h7
    have hcl : canLock db ts.id slot.id = false :=
      canLock_false_of_booked db hwf ts slot htsmem hslotmem h9
    have hlock : lockSlot db ts.id slot.id booking.sport = (db, false) :=
      lockSlot_no_match db ts.id slot.id booking.sport hcl
    have hsi : slotIn db ts.id slot.id = some slot := slotIn_of_mem db hwf ts slot htsmem hslotmem
    have hcond : (lockSlot db ts.id slot.id booking.sport).2 = false := by rw [hlock]
    have hfst : (lockSlot db ts.id slot.id booking.sport).1 = db := by rw [hlock]
    unfold retryPayment
    simp only [hbid, hfind]
    rw [if_neg (show ¬ booking.status = BookingStatus.Paid from by simp [h3])]
    rw [if_neg h4]
    rw [if_pos (Or.inr h3)]
    simp only [h5, h6, h7]
    rw [if_neg (show ¬ booking.status = BookingStatus.Failed from by simp [h3])]
    rw [if_neg (show ¬ ((lockSlot db ts.id slot.id booking.sport).2 = true) from by
      simp [hcond])]
    rw [hfst, hsi]
    simp only [h9, eq_self_iff_true, if_true]
    unfold retryTryBlock
    rcases h10 with herr | ⟨⟨s, hok⟩, hbf⟩
    · simp [herr]
    · simp [hok, hbf]
  · intro env db req bid booking svId ts slot e hwf hbid hfind h3 h4 h5 h6 h7 h9 h10
    have htsmem : ts ∈ db.timeSlots := List.mem_of_find?_eq_some h6
    have hslotmem : slot ∈ ts.slots := List.mem_of_find?_eq_some h7
    have hsi : slotIn db ts.id slot.id = some slot := slotIn_of_mem db hwf ts slot htsmem hslotmem
    have hlock := lockSlot_of_available db ts.id slot.id booking.sport slot hsi h9
    have hred : retryPayment env db req = retryTryBlock env
        (lockSlot db ts.id slot.id booking.sport).1 booking req.userId ts.id slot.id true := by
      unfold retryPayment
      simp only [hbid, hfind]
      rw [if_neg (show ¬ booking.status = BookingStatus.Paid from by simp [h3])]
      rw [if_neg h4]
      rw [if_pos (Or.inl h3)]
      simp only [h5, h6, h7]
      rw [if_pos h3]
      rw [if_pos hlock.1]
    rw [hred]
    have hrel : slotIn (releaseSlot (lockSlot db ts.id slot.id booking.sport).1 ts.id slot.id)
        ts.id slot.id = some (setSlotAvailable slot) :=
      releaseSlot_slotIn (lockSlot db ts.id slot.id booking.sport).1 ts.id slot.id
        (setSlotBooked booking.sport slot) hlock.2
    unfold retryTryBlock
    rcases h10 with herr | ⟨⟨s, hok⟩, hbf⟩
    · simp only [herr, if_true]
      exact ⟨by trivial, hrel, by rw [releaseSlot_bookings, lockSlot_bookings]⟩
    · simp only [hok, hbf, if_true]
      exact ⟨by trivial, hrel, by rw [releaseSlot_bookings, lockSlot_bookings]⟩

/-- Witness for C3: a retry whose slot is already booked errors with the
datastore untouched, and a retry that locked the slot itself reverts it on
failure. -/
theorem C3_retry_ownership_witness :
    retryPayment retryEnvFail pendingBookedDB retryReq =
      (pendingBookedDB, [retrySessionParams pendingBooking 9],
        Except.error ⟨"stripe down", 500⟩) ∧
    ((retryPayment retryEnvFail failedDB retryReq).2.2 =
        Except.error ⟨"stripe down", 500⟩ ∧
      slotIn (retryPayment retryEnvFail failedDB retryReq).1 1 5 =
        some (setSlotAvailable sampleSlot) ∧
      (retryPayment retryEnvFail failedDB retryReq).1.bookings = failedDB.bookings) :=
  ⟨C3_retry_ownership.1 retryEnvFail pendingBookedDB retryReq 42 pendingBooking 2
     bookedDoc bookedSlot ⟨"stripe down", 500⟩ (by decide) rfl (by decide) rfl
     (by decide) rfl (by decide) (by decide) rfl (Or.inl rfl),
   C3_retry_ownership.2 retryEnvFail failedDB retryReq 42 failedBooking 2
     sampleDoc sampleSlot ⟨"stripe down", 500⟩ (by decide) rfl (by decide) rfl
     (by decide) rfl (by decide) (by decide) rfl (Or.inl rfl)⟩

def pendingAvailDB : DB := { sampleDB with bookings := [pendingBooking] }

/-- C5: on a signature-verified checkout.session.expired event the webhook
sets the matching booking Failed, resets the game named in the metadata to
Open, and releases the slot: through the metadata ids when both are
present (first conjunct), otherwise through the sub-venue, date and
start/end-time match against the slot store (second conjunct). -/
theorem C5_session_expired_reconciliation :
    (∀ (env : WebhookEnv) (db : DB) (sid : String) (meta : EventMetadata)
       (docId slotId gid : Nat) (b : Booking) (g : Game) (e : SlotEntry),
      env.constructEvent = Except.ok (StripeEvent.checkoutSessionExpired sid meta) →
      meta.timeSlotDocId = some docId → meta.slotId = some slotId →
      meta.gameId = some gid →
      (db.bookings.map Booking.id).Nodup →
      (db.games.map Game.id).Nodup →
      findBookingBySession db sid = some b →
      findGame db gid = some g →
      slotIn db docId slotId = some e →
      (findBookingById (stripeWebhook env db).1 b.id).map Booking.status =
          some BookingStatus.Failed ∧
        (findGame (stripeWebhook env db).1 g.id).map Game.status = some "Open" ∧
        slotIn (stripeWebhook env db).1 docId slotId = some (setSlotAvailable e)) ∧
    (∀ (env : WebhookEnv) (db : DB) (sid : String) (meta : EventMetadata)
       (svId : Nat) (b : Booking) (ts : TimeSlotDoc) (slot : SlotEntry),
      env.constructEvent = Except.ok (StripeEvent.checkoutSessionExpired sid meta) →
      meta.timeSlotDocId = none →
      dbWF db →
      (db.bookings.map Booking.id).Nodup →
      findBookingBySession db sid = some b →
      b.subVenueId = some svId →
      db.timeSlots.find? (fallbackDocMatch svId (dayKey b.startTime)) = some ts →
      ts.slots.find? (fallbackSlotMatch b.startTime b.endTime) = some slot →
      (findBookingById (stripeWebhook env db).1 b.id).map Booking.status =
          some BookingStatus.Failed ∧
        slotIn (stripeWebhook env db).1 ts.id slot.id = some (setSlotAvailable slot)) := by
  constructor
  · intro env db sid meta docId slotId gid b g e henv hdoc hslot hgid hndb hndg hfb hfg hin
    unfold stripeWebhook
    rw [henv]
    show (findBookingById (handleSessionExpired db sid meta) b.id).map Booking.status =
        some BookingStatus.Failed ∧
      (findGame (handleSessionExpired db sid meta) g.id).map Game.status = some "Open" ∧
      slotIn (handleSessionExpired db sid meta) docId slotId = some (setSlotAvailable e)
    unfold handleSessionExpired
    simp only [hfb, hdoc, hslot]
    have hb1find : findBookingById (expiredBookingAndGameUpdate db (some b) meta) b.id =
        some { b with status := BookingStatus.Failed } := by
      rw [findBookingById_eq_of_bookings_eq _
        (saveBooking db { b with status := BookingStatus.Failed })
        (expiredUpdate_bookings_some db b meta) b.id]
      exact saveBooking_find db b { b with status := BookingStatus.Failed }
        (List.mem_of_find?_eq_some hfb) hndb rfl
    have hg1find : findGame (expiredBookingAndGameUpdate db (some b) meta) g.id =
        some { g with status := "Open" } := by
      rw [findGame_eq_of_games_eq _ (saveGame db { g with status := "Open" })
        (expiredUpdate_games_some_game db b meta gid g hgid hfg) g.id]
      exact saveGame_find db g { g with status := "Open" }
        (List.mem_of_find?_eq_some hfg) hndg rfl
    have htseq : (expiredBookingAndGameUpdate db (some b) meta).timeSlots = db.timeSlots :=
      expiredUpdate_timeSlots db (some b) meta
    refine ⟨?_, ?_, ?_⟩
    · rw [findBookingById_eq_of_bookings_eq _
        (expiredBookingAndGameUpdate db (some b) meta) (releaseSlot_bookings _ _ _) b.id]
      simp [hb1find]
    · rw [findGame_eq_of_games_eq _
        (expiredBookingAndGameUpdate db (some b) meta) (releaseSlot_games _ _ _) g.id]
      simp [hg1find]
    · have hin1 : slotIn (expiredBookingAndGameUpdate db (some b) meta) docId slotId = some e := by
        rw [slotIn_eq_of_timeSlots_eq _ db htseq docId slotId]
        exact hin
      exact releaseSlot_slotIn _ docId slotId e hin1
  · intro env db sid meta svId b ts slot henv hdoc hwf hndb hfb hsv h6 h7
    unfold stripeWebhook
    rw [henv]
    show (findBookingById (handleSessionExpired db sid meta) b.id).map Booking.status =
        some BookingStatus.Failed ∧
      slotIn (handleSessionExpired db sid meta) ts.id slot.id = some (setSlotAvailable slot)
    unfold handleSessionExpired
    simp only [hfb, hdoc]
    unfold expiredFallbackRelease
    simp only [hsv]
    have hb1find : findBookingById (expiredBookingAndGameUpdate db (some b) meta) b.id =
        some { b with status := BookingStatus.Failed } := by
      rw [findBookingById_eq_of_bookings_eq _
        (saveBooking db { b with status := BookingStatus.Failed })
        (expiredUpdate_bookings_some db b meta) b.id]
      exact saveBooking_find db b { b with status := BookingStatus.Failed }
        (List.mem_of_find?_eq_some hfb) hndb rfl
    have htseq : (expiredBookingAndGameUpdate db (some b) meta).timeSlots = db.timeSlots :=
      expiredUpdate_timeSlots db (some b) meta
    have htsmem : ts ∈ db.timeSlots := List.mem_of_find?_eq_some h6
    have hdocfind := updateFirstWhere_find?_first TimeSlotDoc.id
      (fallbackDocMatch svId (dayKey b.startTime)) (fallbackDocUpdate b.startTime b.endTime)
      db.timeSlots ts h6 rfl hwf.1
    have hslotfind := updateFirstWhere_find?_first SlotEntry.id
      (fallbackSlotMatch b.startTime b.endTime) setSlotAvailable
      ts.slots slot h7 rfl (hwf.2 ts htsmem)
    constructor
    · have hgoal : (findBookingById (expiredBookingAndGameUpdate db (some b) meta) b.id).map
          Booking.status = some BookingStatus.Failed := by simp [hb1find]
      exact hgoal
    · unfold slotIn findTimeSlot
      show ((updateFirstWhere (fallbackDocMatch svId (dayKey b.startTime))
          (fallbackDocUpdate b.startTime b.endTime)
          (expiredBookingAndGameUpdate db (some b) meta).timeSlots).1.find?
          (fun t => t.id == ts.id)).bind (fun t => t.slots.find? (fun s => s.id == slot.id)) =
        some (setSlotAvailable slot)
      rw [htseq, hdocfind]
      simp only [Option.bind]
      exact hslotfind

/-- Witness for C5: the metadata release path for a game booking, and the
fallback release path for a session without slot metadata. -/
theorem C5_session_expired_reconciliation_witness :
    ((findBookingById (stripeWebhook expiredEnvGame gamePendingDB).1 42).map Booking.status =
        some BookingStatus.Failed ∧
      (findGame (stripeWebhook expiredEnvGame gamePendingDB).1 8).map Game.status =
        some "Open" ∧
      slotIn (stripeWebhook expiredEnvGame gamePendingDB).1 1 5 =
        some (setSlotAvailable bookedSlot)) ∧
    ((findBookingById (stripeWebhook expiredEnvNone pendingAvailDB).1 42).map Booking.status =
        some BookingStatus.Failed ∧
      slotIn (stripeWebhook expiredEnvNone pendingAvailDB).1 1 5 =
        some (setSlotAvailable sampleSlot)) :=
  ⟨C5_session_expired_reconciliation.1 expiredEnvGame gamePendingDB "sess_1" expiredMetaGame
     1 5 8 pendingBooking sampleGame bookedSlot rfl rfl rfl rfl (by decide) (by decide)
     (by decide) (by decide) (by decide),
   C5_session_expired_reconciliation.2 expiredEnvNone pendingAvailDB "sess_1" expiredMetaNone
     2 pendingBooking sampleDoc sampleSlot rfl rfl (by decide) (by decide) (by decide) rfl
     (by decide) (by decide)⟩

/-- C6 (amended): the direct-booking flow passes a metadata bag with type
"direct", the user id, the pre-generated booking id, and the slot document
id and slot id; but the retry flow passes only type "retry", the user id
and the booking id, with no slot document id and no slot id, so a session
created by retry does not let the webhook locate the slot without the
booking record. -/
theorem C6_session_metadata_amended :
    (∀ (env : DirectEnv) (db : DB) (req : DirectReq) (p : SessionParams),
      p ∈ (createDirectBooking env db req).2.1 →
      p.metaType = "direct" ∧ p.metaUserId = req.userId ∧
        p.metaBookingId = env.freshBookingId ∧
        p.metaTimeSlotDocId = req.timeSlotDocId ∧ p.metaSlotId = req.slotId) ∧
    (∀ (env : RetryEnv) (db : DB) (req : RetryReq) (p : SessionParams),
      p ∈ (retryPayment env db req).2.1 →
      p.metaType = "retry" ∧ p.metaTimeSlotDocId = none ∧ p.metaSlotId = none) := by
  constructor
  · intro env db req p hp
    unfold createDirectBooking directTryBlock at hp
    repeat' (first | split at hp | simp_all [directSessionParams, apply_ite])
  · intro env db req p hp
    unfold retryPayment retryTryBlock at hp
    repeat' (first | split at hp | simp_all [retrySessionParams, apply_ite])

/-- Counterexample for C6 as stated: a concrete retry run creates a session
whose metadata lacks both slot ids. -/
theorem C6_session_metadata_counterexample :
    ((retryPayment retryEnvOk failedDB retryReq).2.1.all
      (fun p => p.metaTimeSlotDocId.isSome && p.metaSlotId.isSome)) = false := by
  decide

/-- Witness for the amended C6 at concrete direct and retry runs. -/
theorem C6_session_metadata_witness :
    ((directSessionParams 999999000000 9 77 1 5 100000).metaType = "direct" ∧
      (directSessionParams 999999000000 9 77 1 5 100000).metaUserId = sampleReq.userId ∧
      (directSessionParams 999999000000 9 77 1 5 100000).metaBookingId =
        sampleEnv.freshBookingId ∧
      (directSessionParams 999999000000 9 77 1 5 100000).metaTimeSlotDocId =
        sampleReq.timeSlotDocId ∧
      (directSessionParams 999999000000 9 77 1 5 100000).metaSlotId = sampleReq.slotId) ∧
    ((retrySessionParams failedBooking 9).metaType = "retry" ∧
      (retrySessionParams failedBooking 9).metaTimeSlotDocId = none ∧
      (retrySessionParams failedBooking 9).metaSlotId = none) :=
  ⟨C6_session_metadata_amended.1 sampleEnv sampleDB sampleReq
     (directSessionParams 999999000000 9 77 1 5 100000) (by decide),
   C6_session_metadata_amended.2 retryEnvOk failedDB retryReq
     (retrySessionParams failedBooking 9) (by decide)⟩

/-- C7 (amended): every session created by the direct-booking flow expires
exactly thirty minutes after its creation time; sessions created by the
retry flow set no expiry at all. -/
theorem C7_session_expiry_amended :
    (∀ (env : DirectEnv) (db : DB) (req : DirectReq) (p : SessionParams),
      p ∈ (createDirectBooking env db req).2.1 →
      p.expiresAt = some (env.now / 1000 + 30 * 60)) ∧
    (∀ (env : RetryEnv) (db : DB) (req : RetryReq) (p : SessionParams),
      p ∈ (retryPayment env db req).2.1 → p.expiresAt = none) := by
  constructor
  · intro env db req p hp
    unfold createDirectBooking directTryBlock at hp
    repeat' (first | split at hp | simp_all [directSessionParams, apply_ite])
  · intro env db req p hp
    unfold retryPayment retryTryBlock at hp
    repeat' (first | split at hp | simp_all [retrySessionParams, apply_ite])

/-- Counterexample for C7 as stated: a concrete retry run creates a session
whose expiry is not creation time plus thirty minutes (none is set). -/
theorem C7_session_expiry_counterexample :
    ((retryPayment retryEnvOk failedDB retryReq).2.1.all
      (fun p => p.expiresAt == some (retryEnvOk.now / 1000 + 30 * 60))) = false := by
  decide

/-- Witness for the amended C7 at concrete direct and retry runs. -/
theorem C7_session_expiry_witness :
    (directSessionParams 999999000000 9 77 1 5 100000).expiresAt =
      some (sampleEnv.now / 1000 + 30 * 60) ∧
    (retrySessionParams failedBooking 9).expiresAt = none :=
  ⟨C7_session_expiry_amended.1 sampleEnv sampleDB sampleReq
     (directSessionParams 999999000000 9 77 1 5 100000) (by decide),
   C7_session_expiry_amended.2 retryEnvOk failedDB retryReq
     (retrySessionParams failedBooking 9) (by decide)⟩

end SportSphere
